import Mathlib

/-!
Verification of the kaspy move-suggestion engine (src/kaspy.py) against its
natural-language specification.

The rules engine (python-chess) is out of scope for the program and is modelled
here as the narrow interface the core actually consumes: outcome query, side to
move, legal-move enumeration, per-side per-kind piece squares, attacked-squares
query, colour-at-square query, king-square lookup, the two game-over flags the
code reads, and move application.  A `Board` packages exactly those queries;
move application is the `children` table (python-chess `Board.push` on a copy).

Numeric scores are modelled with `ℚ` in place of Python floats; every constant
appearing in the program (piece weights, 0.1, 0.2, ±1000.0, 0.0) is exactly
representable, so the arithmetic structure is preserved.

Python exceptions are modelled with `Except`: `Kaspy.eval` raises
`Exception(f"evals is empty. board: {board}")`, an error carrying the offending
board, hence `Except Board ℚ`; `suggest` can also hit `ValueError` from
`max()` / `min()` on an empty sequence, hence its dedicated error type.
-/

set_option linter.unusedVariables false

abbrev Move := Nat

abbrev Square := Nat

/-- python-chess colours are booleans: `chess.WHITE = True`, `chess.BLACK = False`. -/
abbrev Color := Bool

def WHITE : Color := true

def BLACK : Color := false

/-- The part of python-chess `Outcome` the program reads: `outcome.winner`,
which is `None` for a draw and the winning colour otherwise. -/
structure Outcome where
  winner : Option Color
deriving DecidableEq

/-- The six piece kinds of `Kaspy.piece_types`. -/
inductive PieceType where
  | pawn
  | king
  | knight
  | bishop
  | rook
  | queen
deriving DecidableEq

/-- A position, as the rules engine presents it to the core: the outcome query,
side to move, legal moves, piece placement queries, attack queries, the two
game-over flags `suggest` reads, and move application (`children m` is the
position after pushing `m`; `none` for moves the rules engine rejects). -/
inductive Board where
  | mk
      (outcome : Option Outcome)
      (turn : Color)
      (legalMoves : List Move)
      (pieces : PieceType → Color → List Square)
      (attacks : Square → List Square)
      (colorAt : Square → Option Color)
      (king : Color → Square)
      (isVariantEnd : Bool)
      (isStalemate : Bool)
      (children : Move → Option Board)

def Board.outcome : Board → Option Outcome
  | ⟨o, _, _, _, _, _, _, _, _, _⟩ => o

def Board.turn : Board → Color
  | ⟨_, t, _, _, _, _, _, _, _, _⟩ => t

def Board.legalMoves : Board → List Move
  | ⟨_, _, l, _, _, _, _, _, _, _⟩ => l

def Board.pieces : Board → PieceType → Color → List Square
  | ⟨_, _, _, p, _, _, _, _, _, _⟩ => p

def Board.attacks : Board → Square → List Square
  | ⟨_, _, _, _, a, _, _, _, _, _⟩ => a

def Board.colorAt : Board → Square → Option Color
  | ⟨_, _, _, _, _, c, _, _, _, _⟩ => c

def Board.king : Board → Color → Square
  | ⟨_, _, _, _, _, _, k, _, _, _⟩ => k

def Board.isVariantEnd : Board → Bool
  | ⟨_, _, _, _, _, _, _, v, _, _⟩ => v

def Board.isStalemate : Board → Bool
  | ⟨_, _, _, _, _, _, _, _, s, _⟩ => s

def Board.children : Board → Move → Option Board
  | ⟨_, _, _, _, _, _, _, _, _, ch⟩ => ch

/-- python-chess `board.push(move)` for a legal `move` (the core only pushes
moves the rules engine listed).  Total for convenience: on a move without a
recorded child the board is returned unchanged. -/
def Board.push (b : Board) (m : Move) : Board :=
  (b.children m).getD b

/-- The `make_move` context manager of the source: `new_board = board.copy()`
creates an independent object; `new_board.push(move)` mutates only that copy;
the copy is yielded to the `with` block.  Object state is modelled explicitly:
the first component is the board yielded to the block, the second is the state
of the caller's board object after the block runs.  The original is never
touched, so the second component is `board` itself. -/
def make_move (board : Board) (move : Move) : Board × Board :=
  (board.push move, board)

namespace Kaspy

/-- `self.piece_types` from `Kaspy.__init__`. -/
def piece_types : List PieceType :=
  [.pawn, .king, .knight, .bishop, .rook, .queen]

/-- `self.piece_value` from `Kaspy.__init__`: pawn 1.0, king 2.5, knight 3.0,
bishop 3.5, rook 5.0, queen 9.0. -/
def piece_value : PieceType → ℚ
  | .pawn => 1
  | .king => 5 / 2
  | .knight => 3
  | .bishop => 7 / 2
  | .rook => 5
  | .queen => 9

/-- `Kaspy.get_material_score`. -/
def get_material_score (board : Board) (color : Color) : ℚ :=
  (piece_types.map
    (fun p => ((board.pieces p color).length : ℚ) * piece_value p)).sum

/-- `Kaspy.get_attacked_squares_score`: total number of squares attacked by
the side's pieces, scaled by 0.1. -/
def get_attacked_squares_score (board : Board) (color : Color) : ℚ :=
  ((piece_types.map
    (fun p => ((board.pieces p color).map
      (fun sq => ((board.attacks sq).length : ℚ))).sum)).sum) * (1 / 10)

/-- `Kaspy.get_king_safety_score`: squares attacked by the side's king that
hold a friendly piece (`board.color_at(square) == color` is `True` exactly when
the square holds a piece of that colour), scaled by 0.2. -/
def get_king_safety_score (board : Board) (color : Color) : ℚ :=
  (((board.attacks (board.king color)).filter
    (fun sq => board.colorAt sq == some color)).length : ℚ) * (1 / 5)

/-- The six-term static sum of `Kaspy.eval` at depth 0 (source lines 79-86). -/
def evalStatic (board : Board) : ℚ :=
  ([get_material_score board WHITE,
    -(get_material_score board BLACK),
    get_attacked_squares_score board WHITE,
    -(get_attacked_squares_score board BLACK),
    get_king_safety_score board WHITE,
    -(get_king_safety_score board BLACK)]).sum

/-- `outcome and outcome.winner == chess.WHITE`: truthy outcome whose winner is
White.  (`None == chess.WHITE` is `False` in Python, matching `Option.beq`.) -/
def isWhiteWin (board : Board) : Bool :=
  match board.outcome with
  | some o => o.winner == some WHITE
  | none => false

/-- `outcome and outcome.winner == chess.BLACK`. -/
def isBlackWin (board : Board) : Bool :=
  match board.outcome with
  | some o => o.winner == some BLACK
  | none => false

/-- `Kaspy.eval` at depth 0 (also the evaluation `generate_candidates` applies
to each child, since `self.eval(new_board)` uses the defaults depth=0,
breadth=0): the decisive-outcome checks, then the static sum.

Note the source's draw branch `elif outcome and outcome is None: return 0.0`
(line 75) is unreachable — a truthy `outcome` is never `None` — so a drawn
outcome falls through to the depth check exactly as modelled here. -/
def eval0 (board : Board) : ℚ :=
  if isWhiteWin board then 1000
  else if isBlackWin board then -1000
  else evalStatic board

/-- Sort key of `sorted(evals, key=lambda x: x[1], reverse=True)`: descending
by score, stable (CPython's stable sort with `reverse=True` keeps equal-key
elements in original order, as does `List.insertionSort` with this relation). -/
def descSnd (x y : Move × ℚ) : Prop := y.2 ≤ x.2

/-- Sort key of `sorted(evals, key=lambda x: x[1])`: ascending by score. -/
def ascSnd (x y : Move × ℚ) : Prop := x.2 ≤ y.2

instance : DecidableRel descSnd := fun x y => inferInstanceAs (Decidable (y.2 ≤ x.2))

instance : DecidableRel ascSnd := fun x y => inferInstanceAs (Decidable (x.2 ≤ y.2))

instance : IsTotal (Move × ℚ) descSnd := ⟨fun a b => le_total b.2 a.2⟩

instance : IsTotal (Move × ℚ) ascSnd := ⟨fun a b => le_total a.2 b.2⟩

instance : IsTrans (Move × ℚ) descSnd := ⟨fun _ _ _ hab hbc => le_trans hbc hab⟩

instance : IsTrans (Move × ℚ) ascSnd := ⟨fun _ _ _ hab hbc => le_trans hab hbc⟩

/-- `Kaspy.generate_candidates` (source lines 101-118): score every legal move
by a zero-depth evaluation of the resulting position, sort descending when
White is to move and ascending otherwise, return the moves.  The parameter `k`
is accepted but never used — the full sorted sequence is returned. -/
def generate_candidates (board : Board) (k : Nat) : List Move :=
  let evals := board.legalMoves.map
    (fun m => (m, eval0 ((make_move board m).1)))
  if board.turn == WHITE then
    (List.insertionSort descSnd evals).map Prod.fst
  else
    (List.insertionSort ascSnd evals).map Prod.fst

/-- Python `max` over a nonempty list of scores (the `[]` case is never used:
the source guards with a raise before calling `max`). -/
def listMax : List ℚ → ℚ
  | [] => 0
  | x :: xs => xs.foldl max x

/-- Python `min` over a nonempty list of scores. -/
def listMin : List ℚ → ℚ
  | [] => 0
  | x :: xs => xs.foldl min x

/-- Python `max(evals, key=lambda x: x[1])`: first pair with maximal score
(`max` only replaces its running best on a strictly greater key), `none` when
the sequence is empty (Python raises `ValueError` there). -/
def maxByKey : List (Move × ℚ) → Option (Move × ℚ)
  | [] => none
  | x :: xs => some (xs.foldl (fun best y => if best.2 < y.2 then y else best) x)

/-- Python `min(evals, key=lambda x: x[1])`: first pair with minimal score. -/
def minByKey : List (Move × ℚ) → Option (Move × ℚ)
  | [] => none
  | x :: xs => some (xs.foldl (fun best y => if y.2 < best.2 then y else best) x)

/-- The budget handed to each recursive child call of `Kaspy.eval` (source line
92): `depth=depth-1 if breadth > 0 else 0, breadth=breadth//2`. -/
def childBudget (depth breadth : Nat) : Nat × Nat :=
  (if 0 < breadth then depth - 1 else 0, breadth / 2)

/-- The recursive step of `Kaspy.eval` (source lines 87-99), abstracted over
the child evaluation: generate candidates with `k = breadth or 1`, evaluate
each child left to right (the first exception propagates, like the Python
loop), raise carrying the board if no candidate exists, else return the max of
the scores when White is to move and the min otherwise.  The `evals or [0.0]`
fallback of the source is kept verbatim; it is dead code behind the raise. -/
def evalStep (board : Board) (breadth : Nat) (child : Move → Except Board ℚ) :
    Except Board ℚ :=
  match (generate_candidates board (if breadth = 0 then 1 else breadth)).mapM child with
  | Except.error e => Except.error e
  | Except.ok evals =>
    if evals.isEmpty then Except.error board
    else if board.turn == WHITE then
      Except.ok (listMax (if evals.isEmpty then [0] else evals))
    else
      Except.ok (listMin (if evals.isEmpty then [0] else evals))

/-- `Kaspy.eval` (source lines 68-99).  Structure: decisive-outcome checks
first, static sum at depth 0, otherwise the recursive step.  The child budget
is source line 92: depth `depth-1` while `breadth > 0` and `0` once breadth has
reached 0, breadth `breadth // 2`.  To keep the recursion structural in
`depth`, the `breadth = 0` child call `eval new_board 0 (0 / 2)` is replaced by
its value `Except.ok (eval0 new_board)` — `eval` at depth 0 is exactly `eval0`,
which the budget theorem below re-establishes in the source's uniform shape. -/
def eval : Board → Nat → Nat → Except Board ℚ
  | board, 0, _ => Except.ok (eval0 board)
  | board, depth + 1, breadth =>
    if isWhiteWin board then Except.ok 1000
    else if isBlackWin board then Except.ok (-1000)
    else
      evalStep board breadth (fun m =>
        if 0 < breadth then
          eval ((make_move board m).1) depth (breadth / 2)
        else
          Except.ok (eval0 ((make_move board m).1)))

/-- Errors observable from `Kaspy.suggest`: a propagated `Exception` from
`eval` (carrying the offending board), or Python's `ValueError` from
`max()` / `min()` applied to an empty sequence. -/
inductive SuggestError where
  | evalError (b : Board)
  | emptySeq

/-- `Kaspy.suggest` (source lines 49-66): return `None` under the
`is_variant_end` or `is_stalemate` guards, otherwise evaluate every candidate
returned by `generate_candidates(board, k=breadth)` at the full `depth` and
`breadth`, and return the result of `max` / `min` with scores as key — which
in the source is the whole `(move, score)` pair. -/
def suggest (board : Board) (depth breadth : Nat) :
    Except SuggestError (Option (Move × ℚ)) :=
  if board.isVariantEnd then Except.ok none
  else if board.isStalemate then Except.ok none
  else
    match (generate_candidates board breadth).mapM
        (fun m => (eval ((make_move board m).1) depth breadth).map (fun s => (m, s))) with
    | Except.error e => Except.error (SuggestError.evalError e)
    | Except.ok evals =>
      if board.turn == WHITE then
        match maxByKey evals with
        | none => Except.error SuggestError.emptySeq
        | some p => Except.ok (some p)
      else
        match minByKey evals with
        | none => Except.error SuggestError.emptySeq
        | some p => Except.ok (some p)

end Kaspy

/-!
The core `Rat` operations are `@[irreducible]` in this toolchain, which blocks
`rfl` and `decide` on closed score computations; the engine's arithmetic is
fully computable, so they are restored to `semireducible` for the concrete
evaluations below.  This has no effect on any proof's axioms.
-/

set_option allowUnsafeReducibility true

attribute [semireducible] Rat.add Rat.sub Rat.mul Rat.inv

/-- Helper: strengthen a `Pairwise` relation using membership of both sides. -/
lemma pairwise_imp_of_mem {α : Type} {R S : α → α → Prop} :
    ∀ {l : List α}, (∀ a b, a ∈ l → b ∈ l → R a b → S a b) → l.Pairwise R → l.Pairwise S := by
  intro l
  induction l with
  | nil => exact fun _ _ => List.Pairwise.nil
  | cons x xs ih =>
    intro h hp
    rcases List.pairwise_cons.mp hp with ⟨hx, hxs⟩
    refine List.pairwise_cons.mpr ⟨?_, ih ?_ hxs⟩
    · intro y hy
      exact h x y (List.mem_cons_self x xs) (List.mem_cons_of_mem x hy) (hx y hy)
    · intro a c ha hc
      exact h a c (List.mem_cons_of_mem x ha) (List.mem_cons_of_mem x hc)

/-- Helper: the candidate list is a permutation of the legal moves, for every
requested size `k` (the sort permutes, `k` never truncates). -/
lemma generate_candidates_perm (b : Board) (k : Nat) :
    (Kaspy.generate_candidates b k).Perm b.legalMoves := by
  have hfst : (b.legalMoves.map
      (fun m => (m, Kaspy.eval0 ((make_move b m).1)))).map Prod.fst = b.legalMoves := by
    simp [List.map_map, Function.comp_def]
  by_cases ht : b.turn == WHITE
  · have h1 : Kaspy.generate_candidates b k
        = (List.insertionSort Kaspy.descSnd (b.legalMoves.map
            (fun m => (m, Kaspy.eval0 ((make_move b m).1))))).map Prod.fst := by
      simp [Kaspy.generate_candidates, ht]
    have h2 := (List.perm_insertionSort Kaspy.descSnd (b.legalMoves.map
        (fun m => (m, Kaspy.eval0 ((make_move b m).1))))).map Prod.fst
    rw [hfst] at h2
    rw [h1]
    exact h2
  · have h1 : Kaspy.generate_candidates b k
        = (List.insertionSort Kaspy.ascSnd (b.legalMoves.map
            (fun m => (m, Kaspy.eval0 ((make_move b m).1))))).map Prod.fst := by
      simp [Kaspy.generate_candidates, ht]
    have h2 := (List.perm_insertionSort Kaspy.ascSnd (b.legalMoves.map
        (fun m => (m, Kaspy.eval0 ((make_move b m).1))))).map Prod.fst
    rw [hfst] at h2
    rw [h1]
    exact h2

/-- Reference material score, written independently following the claim's
wording: sum over the six piece kinds of count times the fixed weight
pawn 1.0, king 2.5, knight 3.0, bishop 3.5, rook 5.0, queen 9.0. -/
def refMaterial (b : Board) (c : Color) : ℚ :=
  ((b.pieces PieceType.pawn c).length : ℚ) * 1
    + ((b.pieces PieceType.king c).length : ℚ) * (5 / 2)
    + ((b.pieces PieceType.knight c).length : ℚ) * 3
    + ((b.pieces PieceType.bishop c).length : ℚ) * (7 / 2)
    + ((b.pieces PieceType.rook c).length : ℚ) * 5
    + ((b.pieces PieceType.queen c).length : ℚ) * 9

/-- Reference mobility score following the claim's wording: 0.1 times the
side's total attacked-square count (summed over all the side's pieces). -/
def refMobility (b : Board) (c : Color) : ℚ :=
  (1 / 10) * (((Kaspy.piece_types.map (fun p => b.pieces p c)).flatten.map
    (fun sq => ((b.attacks sq).length : ℚ))).sum)

/-- Reference king-safety score following the claim's wording: 0.2 times the
number of squares attacked by the side's king that hold a friendly piece. -/
def refKingSafety (b : Board) (c : Color) : ℚ :=
  (1 / 5) * (((b.attacks (b.king c)).filter
    (fun sq => b.colorAt sq == some c)).length : ℚ)

/-- A position with no outcome: `pawnsW` / `pawnsB` pawns for each side (on
squares no piece attacks), no other pieces, nothing attacked, kings off-board
as far as the scoring queries can observe.  Static score: `pawnsW - pawnsB`. -/
def nodeBoard (t : Color) (pawnsW pawnsB : Nat) (ms : List Move)
    (ch : Move → Option Board) : Board :=
  Board.mk none t ms
    (fun p c => if p = PieceType.pawn then
        (if c = WHITE then List.range pawnsW else List.range pawnsB) else [])
    (fun _ => []) (fun _ => none) (fun _ => 0) false false ch

/-- A terminal test position: no legal moves, static score `w - bl`. -/
def leafBoard (w bl : Nat) : Board :=
  nodeBoard WHITE w bl [] (fun _ => none)

def leaf3 : Board := leafBoard 3 0

def leaf1 : Board := leafBoard 1 0

/-- White to move, two legal moves: move 0 reaches static score 3, move 1
reaches static score 1. -/
def rootB1 : Board :=
  nodeBoard WHITE 0 0 [0, 1]
    (fun m => if m = 0 then some leaf3 else if m = 1 then some leaf1 else none)

def gLoss : Board := leafBoard 0 5

def gGain : Board := leafBoard 7 0

/-- Black to move, one reply reaching static score -5; its own static score is
10, so the root's one-ply ordering ranks it first. -/
def childA : Board :=
  nodeBoard BLACK 10 0 [100] (fun m => if m = 100 then some gLoss else none)

/-- Black to move, one reply reaching static score 7; its own static score is
0, so the root's one-ply ordering ranks it second. -/
def childB : Board :=
  nodeBoard BLACK 0 0 [200] (fun m => if m = 200 then some gGain else none)

/-- White to move, moves 0 (to `childA`) and 1 (to `childB`).  The shallow
ordering puts move 0 first, but at depth 1 move 1 scores 7 and move 0 scores
-5, so a breadth-1 truncation at the root would change the suggestion. -/
def rootB3 : Board :=
  nodeBoard WHITE 0 0 [0, 1]
    (fun m => if m = 0 then some childA else if m = 1 then some childB else none)

/-- A real stalemate as python-chess reports it: White Kb6 (square 41) and
Pa7 (48), Black Ka8 (56), Black to move with no legal moves — outcome present
with `winner = None`, `is_stalemate()` True, `is_variant_end()` False.  The
attack sets are the true ones (Pa7 attacks b8 = 57; Kb6 attacks the eight
squares around b6; Ka8 attacks a7, b7, b8), so the static score is
(3.5 - 2.5) + (0.9 - 0.3) + (0.2 - 0) = 9/5, not 0. -/
def drawBoard : Board :=
  Board.mk (some { winner := none }) BLACK []
    (fun p c =>
      if p = PieceType.pawn then (if c = WHITE then [48] else [])
      else if p = PieceType.king then (if c = WHITE then [41] else [56])
      else [])
    (fun sq =>
      if sq = 48 then [57]
      else if sq = 41 then [32, 33, 34, 40, 42, 48, 49, 50]
      else if sq = 56 then [48, 49, 57]
      else [])
    (fun sq =>
      if sq = 48 then some WHITE
      else if sq = 41 then some WHITE
      else if sq = 56 then some BLACK
      else none)
    (fun c => if c = WHITE then 41 else 56) false true (fun _ => none)

/-- A checkmate root as python-chess reports it for standard chess: White to
move, no legal moves, decisive outcome (Black won), `is_variant_end()` False
(the base `chess.Board` always returns False there — checkmate is not a
variant-specific end), `is_stalemate()` False. -/
def mateBoard : Board :=
  Board.mk (some { winner := some BLACK }) WHITE []
    (fun _ _ => []) (fun _ => []) (fun _ => none) (fun _ => 0) false false (fun _ => none)

/-- White won decisively. -/
def whiteWinBoard : Board :=
  Board.mk (some { winner := some WHITE }) WHITE []
    (fun _ _ => []) (fun _ => []) (fun _ => none) (fun _ => 0) false false (fun _ => none)

/-- Black won decisively. -/
def blackWinBoard : Board :=
  Board.mk (some { winner := some BLACK }) BLACK []
    (fun _ _ => []) (fun _ => []) (fun _ => none) (fun _ => 0) false false (fun _ => none)

/-- The internal-contract-violation position: no outcome reported yet no legal
moves (the rules engine should prevent this; `eval` must fail fatally on it). -/
def noMoveBoard : Board :=
  nodeBoard WHITE 0 0 [] (fun _ => none)

/-- Claim C1: the claim (and the source's own `-> chess.Move | None`
annotation) says `suggest` returns the bare best move; the code returns the
whole `(move, score)` pair produced by `max` / `min` with the score as key.
On `rootB1` (two legal moves, White to move, best score 3 reached by move 0)
the returned payload is the pair `(0, 3)`, not the move `0`. -/
theorem suggest_returns_scored_pair :
    Kaspy.suggest rootB1 0 10 = Except.ok (some ((0 : Move), (3 : ℚ))) := rfl

/-- Claim C2: the draw branch of `eval` (`elif outcome and outcome is None`)
can never fire, so a drawn position is NOT evaluated to 0.0: on the stalemate
`drawBoard` (outcome present, no winner) `eval` at depth 0 returns the static
score 9/5 = 1.8, and at depth 1 it raises instead of returning 0.0. -/
theorem eval_draw_not_zero :
    Kaspy.eval drawBoard 0 5 = Except.ok (9 / 5) ∧ (9 / 5 : ℚ) ≠ 0 ∧
      Kaspy.eval drawBoard 1 1 = Except.error drawBoard :=
  ⟨rfl, by norm_num, rfl⟩

/-- Claim C3 counterexample: root-level truncation to `breadth` is NOT
honored.  On `rootB3` with breadth 1 the first (and only, were truncation
honored) candidate in sorted order is move 0, yet `suggest` evaluates both
candidates and returns move 1 — a candidate outside the first-`breadth`
prefix competes and wins. -/
theorem suggest_no_truncation_cex :
    Kaspy.generate_candidates rootB3 1 = [0, 1] ∧
      Kaspy.suggest rootB3 1 1 = Except.ok (some ((1 : Move), (7 : ℚ))) :=
  ⟨rfl, rfl⟩

/-- Claim C3 (amended): `suggest` iterates `generate_candidates(board,
k=breadth)`, but the `k` argument is ignored there, so ALL legal moves — the
full sorted permutation — are evaluated at the root and compete for selection,
for every `breadth`; no truncation happens anywhere. -/
theorem suggest_candidates_ignore_breadth (b : Board) (k1 k2 : Nat) :
    Kaspy.generate_candidates b k1 = Kaspy.generate_candidates b k2 ∧
      (Kaspy.generate_candidates b k1).Perm b.legalMoves :=
  ⟨rfl, generate_candidates_perm b k1⟩

/-- Claim C4: a decisive-outcome root does NOT return "no move": for standard
chess `is_variant_end()` is always False, so a checkmate root slips past both
guards, the candidate list is empty, and `max` / `min` raises `ValueError`
(modelled as `SuggestError.emptySeq`) instead of returning `None`. -/
theorem suggest_mate_root_raises :
    Kaspy.suggest mateBoard 5 10 = Except.error Kaspy.SuggestError.emptySeq := rfl

/-- Claim C10: `make_move` applies the move to a fresh copy and the parent
position is observably unchanged after the call: the state of the caller's
board after the `with` block is the original board, and the yielded board is
the pushed copy.  (`eval`, `suggest` and `generate_candidates` act on board
values only through `make_move`, so they never alter their input.) -/
theorem make_move_parent_unchanged (b : Board) (m : Move) (h : m ∈ b.legalMoves) :
    (make_move b m).2 = b ∧ (make_move b m).1 = b.push m :=
  ⟨rfl, rfl⟩

theorem make_move_parent_unchanged_witness :
    ((0 : Move) ∈ rootB1.legalMoves) ∧
      ((make_move rootB1 0).2 = rootB1 ∧ (make_move rootB1 0).1 = rootB1.push 0) :=
  ⟨by decide, make_move_parent_unchanged rootB1 0 (by decide)⟩

/-- Claim C5: on a position with a decisive outcome, `eval` returns exactly
1000 when White won and exactly -1000 when Black won, for every depth and
breadth — both parameters are ignored on this path. -/
theorem eval_decisive_outcome (b : Board) (o : Outcome) (d br : Nat)
    (h : b.outcome = some o) :
    (o.winner = some WHITE → Kaspy.eval b d br = Except.ok 1000) ∧
      (o.winner = some BLACK → Kaspy.eval b d br = Except.ok (-1000)) := by
  constructor
  · intro hwin
    have h1 : Kaspy.isWhiteWin b = true := by
      simp [Kaspy.isWhiteWin, h, hwin]
    cases d with
    | zero => simp [Kaspy.eval, Kaspy.eval0, h1]
    | succ n => simp [Kaspy.eval, h1]
  · intro hwin
    have h1 : Kaspy.isWhiteWin b = false := by
      simp [Kaspy.isWhiteWin, h, hwin, WHITE, BLACK]
    have h2 : Kaspy.isBlackWin b = true := by
      simp [Kaspy.isBlackWin, h, hwin]
    cases d with
    | zero => simp [Kaspy.eval, Kaspy.eval0, h1, h2]
    | succ n => simp [Kaspy.eval, h1, h2]

theorem eval_decisive_outcome_witness :
    (whiteWinBoard.outcome = some { winner := some WHITE } ∧
      blackWinBoard.outcome = some { winner := some BLACK }) ∧
    Kaspy.eval whiteWinBoard 3 7 = Except.ok 1000 ∧
      Kaspy.eval blackWinBoard 4 9 = Except.ok (-1000) :=
  ⟨⟨rfl, rfl⟩,
    (eval_decisive_outcome whiteWinBoard { winner := some WHITE } 3 7 rfl).1 rfl,
    (eval_decisive_outcome blackWinBoard { winner := some BLACK } 4 9 rfl).2 rfl⟩

/-- Claim C9: at a non-terminal node (no decisive-winner outcome) with
positive depth, when candidate generation yields no move, `eval` fails with
the error carrying the offending position — it never returns the dead `0.0`
fallback that sits behind the raise. -/
theorem eval_empty_candidates_error (b : Board) (d br : Nat) (hd : 0 < d)
    (hw : Kaspy.isWhiteWin b = false) (hb : Kaspy.isBlackWin b = false)
    (hc : Kaspy.generate_candidates b (if br = 0 then 1 else br) = []) :
    Kaspy.eval b d br = Except.error b := by
  cases d with
  | zero => omega
  | succ n =>
    simp [Kaspy.eval, hw, hb, Kaspy.evalStep, hc, List.mapM.loop, pure, Except.pure]

theorem eval_empty_candidates_error_witness :
    (0 < 1 ∧ Kaspy.isWhiteWin noMoveBoard = false ∧
      Kaspy.isBlackWin noMoveBoard = false ∧
      Kaspy.generate_candidates noMoveBoard (if 1 = 0 then 1 else 1) = []) ∧
    Kaspy.eval noMoveBoard 1 1 = Except.error noMoveBoard :=
  ⟨⟨by decide, rfl, rfl, rfl⟩,
    eval_empty_candidates_error noMoveBoard 1 1 (by decide) rfl rfl rfl⟩

/-- Claim C6: on a position with no outcome reported, `eval` at depth 0 (any
breadth) is exactly the six-term static formula — reference material with the
fixed weights pawn 1.0, king 2.5, knight 3.0, bishop 3.5, rook 5.0, queen 9.0,
reference mobility at 0.1 per attacked square, and reference king safety at
0.2 per defended king-adjacent square, each as White minus Black. -/
theorem eval_depth_zero_static (b : Board) (br : Nat) (h : b.outcome = none) :
    Kaspy.eval b 0 br = Except.ok
      (refMaterial b WHITE - refMaterial b BLACK
        + refMobility b WHITE - refMobility b BLACK
        + refKingSafety b WHITE - refKingSafety b BLACK) := by
  have h1 : Kaspy.isWhiteWin b = false := by simp [Kaspy.isWhiteWin, h]
  have h2 : Kaspy.isBlackWin b = false := by simp [Kaspy.isBlackWin, h]
  have h3 : Kaspy.eval b 0 br = Except.ok (Kaspy.evalStatic b) := by
    simp [Kaspy.eval, Kaspy.eval0, h1, h2]
  rw [h3]
  congr 1
  simp only [Kaspy.evalStatic, Kaspy.get_material_score, Kaspy.get_attacked_squares_score,
    Kaspy.get_king_safety_score, Kaspy.piece_types, Kaspy.piece_value,
    refMaterial, refMobility, refKingSafety,
    List.map_cons, List.map_nil, List.flatten, List.map_append, List.sum_append,
    List.sum_cons, List.sum_nil, List.append_nil]
  ring

theorem eval_depth_zero_static_witness :
    (leafBoard 2 1).outcome = none ∧
      Kaspy.eval (leafBoard 2 1) 0 4 = Except.ok
        (refMaterial (leafBoard 2 1) WHITE - refMaterial (leafBoard 2 1) BLACK
          + refMobility (leafBoard 2 1) WHITE - refMobility (leafBoard 2 1) BLACK
          + refKingSafety (leafBoard 2 1) WHITE - refKingSafety (leafBoard 2 1) BLACK) :=
  ⟨rfl, eval_depth_zero_static (leafBoard 2 1) 4 rfl⟩

/-- Claim C7: for every position with a legal move and every `k`,
`generate_candidates` returns a permutation of ALL legal moves (`k` never
truncates), ordered so that the attached one-ply static scores are
monotonically non-increasing when White is to move and non-decreasing when
Black is to move. -/
theorem generate_candidates_sorted_perm (b : Board) (k : Nat) (h : b.legalMoves ≠ []) :
    (Kaspy.generate_candidates b k).Perm b.legalMoves ∧
      (b.turn = WHITE → (Kaspy.generate_candidates b k).Pairwise
        (fun m1 m2 => Kaspy.eval0 (b.push m2) ≤ Kaspy.eval0 (b.push m1))) ∧
      (b.turn = BLACK → (Kaspy.generate_candidates b k).Pairwise
        (fun m1 m2 => Kaspy.eval0 (b.push m1) ≤ Kaspy.eval0 (b.push m2))) := by
  refine ⟨generate_candidates_perm b k, ?_, ?_⟩
  · intro ht
    have hgc : Kaspy.generate_candidates b k
        = (List.insertionSort Kaspy.descSnd (b.legalMoves.map
            (fun m => (m, Kaspy.eval0 ((make_move b m).1))))).map Prod.fst := by
      simp [Kaspy.generate_candidates, ht, WHITE]
    have hmem : ∀ p ∈ List.insertionSort Kaspy.descSnd (b.legalMoves.map
        (fun m => (m, Kaspy.eval0 ((make_move b m).1)))),
        p.2 = Kaspy.eval0 (b.push p.1) := by
      intro p hp
      have hpe : p ∈ b.legalMoves.map (fun m => (m, Kaspy.eval0 ((make_move b m).1))) :=
        (List.perm_insertionSort Kaspy.descSnd _).mem_iff.mp hp
      rcases List.mem_map.mp hpe with ⟨m, _, rfl⟩
      rfl
    have hs : (List.insertionSort Kaspy.descSnd (b.legalMoves.map
        (fun m => (m, Kaspy.eval0 ((make_move b m).1))))).Pairwise Kaspy.descSnd :=
      List.sorted_insertionSort Kaspy.descSnd _
    rw [hgc]
    refine List.pairwise_map.mpr (pairwise_imp_of_mem ?_ hs)
    intro x y hx hy hr
    rw [← hmem x hx, ← hmem y hy]
    exact hr
  · intro ht
    have hgc : Kaspy.generate_candidates b k
        = (List.insertionSort Kaspy.ascSnd (b.legalMoves.map
            (fun m => (m, Kaspy.eval0 ((make_move b m).1))))).map Prod.fst := by
      simp [Kaspy.generate_candidates, ht, WHITE, BLACK]
    have hmem : ∀ p ∈ List.insertionSort Kaspy.ascSnd (b.legalMoves.map
        (fun m => (m, Kaspy.eval0 ((make_move b m).1)))),
        p.2 = Kaspy.eval0 (b.push p.1) := by
      intro p hp
      have hpe : p ∈ b.legalMoves.map (fun m => (m, Kaspy.eval0 ((make_move b m).1))) :=
        (List.perm_insertionSort Kaspy.ascSnd _).mem_iff.mp hp
      rcases List.mem_map.mp hpe with ⟨m, _, rfl⟩
      rfl
    have hs : (List.insertionSort Kaspy.ascSnd (b.legalMoves.map
        (fun m => (m, Kaspy.eval0 ((make_move b m).1))))).Pairwise Kaspy.ascSnd :=
      List.sorted_insertionSort Kaspy.ascSnd _
    rw [hgc]
    refine List.pairwise_map.mpr (pairwise_imp_of_mem ?_ hs)
    intro x y hx hy hr
    rw [← hmem x hx, ← hmem y hy]
    exact hr

theorem generate_candidates_sorted_perm_witness :
    rootB1.legalMoves ≠ [] ∧
      ((Kaspy.generate_candidates rootB1 5).Perm rootB1.legalMoves ∧
        (rootB1.turn = WHITE → (Kaspy.generate_candidates rootB1 5).Pairwise
          (fun m1 m2 => Kaspy.eval0 (rootB1.push m2) ≤ Kaspy.eval0 (rootB1.push m1))) ∧
        (rootB1.turn = BLACK → (Kaspy.generate_candidates rootB1 5).Pairwise
          (fun m1 m2 => Kaspy.eval0 (rootB1.push m1) ≤ Kaspy.eval0 (rootB1.push m2)))) :=
  ⟨by decide, generate_candidates_sorted_perm rootB1 5 (by decide)⟩

/-- Claim C8: at every recursive step (`depth > 0`, no decisive winner), the
one-step unfolding of `eval` runs `evalStep` with each child evaluated at
exactly the budget `childBudget depth breadth`, which is `(depth - 1,
breadth / 2)` while `breadth > 0` and `(0, 0)` once `breadth = 0`; in
particular breadth 10 hands a child breadth 5 and a grandchild breadth 2, and
a call whose depth was forced to 0 evaluates statically (`eval0`) at once. -/
theorem eval_budget_recurrence (b x : Board) (d br br2 : Nat) (hd : 0 < d)
    (hw : Kaspy.isWhiteWin b = false) (hb : Kaspy.isBlackWin b = false) :
    Kaspy.eval b d br = Kaspy.evalStep b br (fun m =>
        Kaspy.eval ((make_move b m).1) (Kaspy.childBudget d br).1 (Kaspy.childBudget d br).2) ∧
      (0 < br → Kaspy.childBudget d br = (d - 1, br / 2)) ∧
      Kaspy.childBudget d 0 = (0, 0) ∧
      Kaspy.childBudget d 10 = (d - 1, 5) ∧
      Kaspy.childBudget (d - 1) 5 = (d - 2, 2) ∧
      Kaspy.eval x 0 br2 = Except.ok (Kaspy.eval0 x) := by
  refine ⟨?_, ?_, ?_, ?_, ?_, rfl⟩
  · cases d with
    | zero => omega
    | succ n =>
      have h1 : Kaspy.eval b (n + 1) br
          = (if Kaspy.isWhiteWin b then Except.ok 1000
             else if Kaspy.isBlackWin b then Except.ok (-1000)
             else Kaspy.evalStep b br (fun m =>
               if 0 < br then Kaspy.eval ((make_move b m).1) n (br / 2)
               else Except.ok (Kaspy.eval0 ((make_move b m).1)))) := rfl
      rw [h1, hw, hb]
      simp only [Bool.false_eq_true, if_false]
      congr 1
      funext m
      rcases Nat.eq_zero_or_pos br with h0 | hpos
      · subst h0
        simp only [Kaspy.childBudget, Nat.lt_irrefl, if_neg, Nat.zero_div]
        exact rfl
      · simp [Kaspy.childBudget, hpos]
  · intro hpos
    simp [Kaspy.childBudget, hpos]
  · simp [Kaspy.childBudget]
  · simp [Kaspy.childBudget]
  · simp only [Kaspy.childBudget, Nat.zero_lt_succ, if_pos]
    refine Prod.ext ?_ rfl
    simp only []
    omega

theorem eval_budget_recurrence_witness :
    (0 < 3 ∧ Kaspy.isWhiteWin rootB1 = false ∧ Kaspy.isBlackWin rootB1 = false) ∧
      (Kaspy.eval rootB1 3 10 = Kaspy.evalStep rootB1 10 (fun m =>
          Kaspy.eval ((make_move rootB1 m).1) (Kaspy.childBudget 3 10).1
            (Kaspy.childBudget 3 10).2) ∧
        (0 < 10 → Kaspy.childBudget 3 10 = (3 - 1, 10 / 2)) ∧
        Kaspy.childBudget 3 0 = (0, 0) ∧
        Kaspy.childBudget 3 10 = (3 - 1, 5) ∧
        Kaspy.childBudget (3 - 1) 5 = (3 - 2, 2) ∧
        Kaspy.eval leaf1 0 7 = Except.ok (Kaspy.eval0 leaf1)) :=
  ⟨⟨by decide, rfl, rfl⟩,
    eval_budget_recurrence rootB1 leaf1 3 10 7 (by decide) rfl rfl⟩
